import Mathlib

/-!
Verification of the search and ranking core of the launch_sitebot DAM
repository, shallowly embedded from
src/launch_dam/api/services/search.py, src/launch_dam/api/db/queries.py,
src/launch_dam/api/routes/search.py and src/launch_dam/api/models/schemas.py.

Modelling conventions: text is a list of characters; NULL-able database
columns are Option-typed; scores are exact rationals (0.7 is 7/10 and 0.3 is
3/10).  The storage engine's pg_trgm operators (similarity and the percent
match operator) and the pgvector distance operator are external collaborators
and enter the model as oracle parameters.  SQL ORDER BY is modelled with
List.insertionSort over the corresponding decidable total preorder, SQL LIMIT
with List.take, and a raised exception with an Option or Except value.
-/

namespace LaunchDam

attribute [local semireducible] Rat.add Rat.mul Rat.sub Rat.inv

abbrev Text := List Char

abbrev Emb := List ℚ

/-- Subset of the assets table relevant to the ranking core; NULL-able columns
are Option-typed.  The nested JSON paths read by the filter builder are
flattened to the single values the SQL extracts (a missing or null JSON path
is none). -/
structure Asset where
  id : Nat := 0
  filename : Text := []
  search_text : Option Text := none
  embedding : Option Emb := none
  asset_type : Option Text := none
  album_name : Option Text := none
  media_type : Option Text := none
  content_type : Option Text := none
  reusability_score : Option Nat := none
  suitable_for_text_overlay : Option Bool := none
  energy_level : Option Nat := none
  has_date : Option Bool := none
  has_location : Option Bool := none
  created_in_db : Nat := 0
  thumbnail_url : Option Text := none
  full_url : Option Text := none
  width : Option Nat := none
  height : Option Nat := none
  semantic_description : Option Text := none
deriving DecidableEq

/-- models.schemas.SearchFilters: nine independent optional fields. -/
structure SearchFilters where
  asset_type : Option Text := none
  album : Option Text := none
  media_type : Option Text := none
  content_type : Option Text := none
  min_reusability : Option Nat := none
  has_text_overlay_space : Option Bool := none
  min_energy : Option Nat := none
  no_hardcoded_date : Option Bool := none
  no_hardcoded_location : Option Bool := none
deriving DecidableEq

/-- Python truthiness of an optional string field: None and the empty string
are falsy. -/
def truthyText : Option Text → Bool
  | none => false
  | some t => !t.isEmpty

/-- Python truthiness of an optional integer field: None and 0 are falsy. -/
def truthyNat : Option Nat → Bool
  | none => false
  | some n => n != 0

/-- Python truthiness of an optional boolean field: None and False are falsy. -/
def truthyBool : Option Bool → Bool
  | none => false
  | some b => b

/-- SearchService._has_active_filters: true when any of the nine filter fields
is Python-truthy. -/
def has_active_filters (f : SearchFilters) : Bool :=
  truthyText f.asset_type || truthyText f.album || truthyText f.media_type ||
  truthyText f.content_type || truthyNat f.min_reusability ||
  truthyBool f.has_text_overlay_space || truthyNat f.min_energy ||
  truthyBool f.no_hardcoded_date || truthyBool f.no_hardcoded_location

/-- Case lowering used by SQL ILIKE comparisons. -/
def lowerT (t : Text) : Text := t.map Char.toLower

/-- SQL col ILIKE percent-query-percent: case-insensitive substring
containment of the query in the column value. -/
def ilike (col : Text) (q : Text) : Bool :=
  decide (lowerT q <:+: lowerT col)

/-- Ascending ORDER BY on the rational key attached to each row. -/
def ascKey (x y : Asset × ℚ) : Prop := x.2 ≤ y.2

/-- Descending ORDER BY on the rational key attached to each row. -/
def descKey (x y : Asset × ℚ) : Prop := y.2 ≤ x.2

instance : DecidableRel ascKey := fun x y =>
  decidable_of_iff (x.2 ≤ y.2) Iff.rfl

instance : DecidableRel descKey := fun x y =>
  decidable_of_iff (y.2 ≤ x.2) Iff.rfl

instance : IsTotal (Asset × ℚ) ascKey := ⟨fun x y => le_total x.2 y.2⟩

instance : IsTrans (Asset × ℚ) ascKey := ⟨fun _ _ _ h1 h2 => le_trans h1 h2⟩

instance : IsTotal (Asset × ℚ) descKey := ⟨fun x y => le_total y.2 x.2⟩

instance : IsTrans (Asset × ℚ) descKey := ⟨fun _ _ _ h1 h2 => le_trans h2 h1⟩

/-- Semantic CTE of HYBRID_SEARCH: assets with an embedding, ordered by vector
distance to the query embedding ascending, capped at 100 rows, each carrying
semantic score 1 minus distance.  The pgvector distance operator is the
oracle cos. -/
def semantic_results (db : List Asset) (cos : Emb → Emb → ℚ) (qe : Emb) :
    List (Nat × ℚ) :=
  ((((db.filter (fun a => a.embedding.isSome)).map
      (fun a => (a, cos qe (a.embedding.getD [])))).insertionSort ascKey).map
      (fun p => (p.1.id, 1 - p.2))).take 100

/-- Keyword CTE of HYBRID_SEARCH: rows with non-null search_text passing the
trigram match operator, capped at 100 rows (the CTE has no ORDER BY), each
carrying its trigram similarity to the query. -/
def keyword_results (db : List Asset) (sim : Text → Text → ℚ)
    (trgm : Text → Text → Bool) (q : Text) : List (Nat × ℚ) :=
  ((db.filter (fun a => a.search_text.isSome && trgm (a.search_text.getD []) q)).map
    (fun a => (a.id, sim (a.search_text.getD []) q))).take 100

/-- Combined score of the HYBRID_SEARCH outer select:
COALESCE(semantic, 0) * 0.7 + COALESCE(keyword, 0) * 0.3, left-joined on the
asset identifier. -/
def combined_score (sres kres : List (Nat × ℚ)) (a : Asset) : ℚ :=
  ((sres.lookup a.id).getD 0) * (7/10) + ((kres.lookup a.id).getD 0) * (3/10)

/-- HYBRID_SEARCH outer query: keep assets present in at least one candidate
set, score each with combined_score, order by combined score descending and
take the requested limit. -/
def hybrid_search (db : List Asset) (cos : Emb → Emb → ℚ) (sim : Text → Text → ℚ)
    (trgm : Text → Text → Bool) (qe : Emb) (q : Text) (limit : Nat) :
    List (Asset × ℚ) :=
  let sres := semantic_results db cos qe
  let kres := keyword_results db sim trgm q
  (((db.filter (fun a =>
      (sres.lookup a.id).isSome || (kres.lookup a.id).isSome)).map
      (fun a => (a, combined_score sres kres a))).insertionSort descKey).take limit

/-- KEYWORD_SEARCH query: trigram-matching rows with non-null search_text,
ordered by trigram similarity descending, capped at the limit. -/
def keyword_primary (db : List Asset) (sim : Text → Text → ℚ)
    (trgm : Text → Text → Bool) (q : Text) (limit : Nat) : List (Asset × ℚ) :=
  (((db.filter (fun a => a.search_text.isSome && trgm (a.search_text.getD []) q)).map
      (fun a => (a, sim (a.search_text.getD []) q))).insertionSort descKey).take limit

/-- ORDER BY rank of the ILIKE fallback: 0 when the filename matches the
pattern, 1 otherwise. -/
def fb_rank (q : Text) (a : Asset) : Nat := if ilike a.filename q then 0 else 1

/-- ORDER BY key of the ILIKE fallback: filename matches first, then most
recently created first. -/
def fbLe (q : Text) (x y : Asset × ℚ) : Prop :=
  fb_rank q x.1 < fb_rank q y.1 ∨
    (fb_rank q x.1 = fb_rank q y.1 ∧ y.1.created_in_db ≤ x.1.created_in_db)

instance (q : Text) : DecidableRel (fbLe q) := fun x y =>
  decidable_of_iff (fb_rank q x.1 < fb_rank q y.1 ∨
    (fb_rank q x.1 = fb_rank q y.1 ∧ y.1.created_in_db ≤ x.1.created_in_db)) Iff.rfl

instance (q : Text) : IsTotal (Asset × ℚ) (fbLe q) :=
  ⟨fun x y => by unfold fbLe; omega⟩

instance (q : Text) : IsTrans (Asset × ℚ) (fbLe q) :=
  ⟨fun x y z h1 h2 => by unfold fbLe at h1 h2 ⊢; omega⟩

/-- WHERE predicate of the ILIKE fallback in SearchService._keyword_search:
search_text non-null and the pattern contained in search_text or filename. -/
def fb_pred (q : Text) (a : Asset) : Bool :=
  a.search_text.isSome && (ilike (a.search_text.getD []) q || ilike a.filename q)

/-- The ILIKE fallback query of SearchService._keyword_search: every match
scores 0.5, ordering filename matches before search-text-only matches and
newest records first within a rank. -/
def keyword_fallback (db : List Asset) (q : Text) (limit : Nat) :
    List (Asset × ℚ) :=
  (((db.filter (fb_pred q)).map (fun a => (a, (1 : ℚ)/2))).insertionSort
      (fbLe q)).take limit

/-- SearchService._keyword_search: run the trigram query first and fall back
to the ILIKE query exactly when it returns no rows. -/
def keyword_search (db : List Asset) (sim : Text → Text → ℚ)
    (trgm : Text → Text → Bool) (q : Text) (limit : Nat) : List (Asset × ℚ) :=
  let rows := keyword_primary db sim trgm q limit
  if rows.isEmpty then keyword_fallback db q limit else rows

/-- One conjunct of the form dollar-n is NULL OR col equals dollar-n in
FILTERED_HYBRID_SEARCH: a NULL parameter imposes nothing, a non-NULL parameter
requires the column to equal it (so a NULL column never matches). -/
def opt_eq (p : Option Text) (col : Option Text) : Bool :=
  match p with
  | none => true
  | some v => col == some v

/-- The filter FILTERED_HYBRID_SEARCH applies in both CTEs and in the outer
select: only asset_type, album_name and media_type are constrained. -/
def triple_filter (f : SearchFilters) (a : Asset) : Bool :=
  opt_eq f.asset_type a.asset_type && opt_eq f.album a.album_name &&
    opt_eq f.media_type a.media_type

/-- Semantic CTE of FILTERED_HYBRID_SEARCH: as semantic_results with the
three-way filter added. -/
def filtered_semantic_results (db : List Asset) (cos : Emb → Emb → ℚ) (qe : Emb)
    (f : SearchFilters) : List (Nat × ℚ) :=
  ((((db.filter (fun a => a.embedding.isSome && triple_filter f a)).map
      (fun a => (a, cos qe (a.embedding.getD [])))).insertionSort ascKey).map
      (fun p => (p.1.id, 1 - p.2))).take 100

/-- Keyword CTE of FILTERED_HYBRID_SEARCH: as keyword_results with the
three-way filter added. -/
def filtered_keyword_results (db : List Asset) (sim : Text → Text → ℚ)
    (trgm : Text → Text → Bool) (q : Text) (f : SearchFilters) :
    List (Nat × ℚ) :=
  ((db.filter (fun a =>
      a.search_text.isSome && trgm (a.search_text.getD []) q && triple_filter f a)).map
    (fun a => (a.id, sim (a.search_text.getD []) q))).take 100

/-- FILTERED_HYBRID_SEARCH outer query: candidate-set membership, the
three-way filter on the joined row, combined scoring, descending order and the
limit. -/
def filtered_hybrid_search (db : List Asset) (cos : Emb → Emb → ℚ)
    (sim : Text → Text → ℚ) (trgm : Text → Text → Bool) (qe : Emb)
    (f : SearchFilters) (q : Text) (limit : Nat) : List (Asset × ℚ) :=
  let sres := filtered_semantic_results db cos qe f
  let kres := filtered_keyword_results db sim trgm q f
  (((db.filter (fun a =>
      ((sres.lookup a.id).isSome || (kres.lookup a.id).isSome) && triple_filter f a)).map
      (fun a => (a, combined_score sres kres a))).insertionSort descKey).take limit

/-- The dynamic filter conjuncts of SearchService._filtered_keyword_search in
the order the code appends them; a Python-falsy field contributes no conjunct.
A threshold conjunct on a NULL column is false (SQL NULL comparison) and the
nested boolean conjuncts follow the SQL: the text-overlay check demands the
flag be literally true, while the two exclusion checks accept anything that is
not literally true. -/
def filter_conditions (f : SearchFilters) : List (Asset → Bool) :=
  (if truthyText f.asset_type then
    [fun a => a.asset_type == some (f.asset_type.getD [])] else []) ++
  (if truthyText f.album then
    [fun a => a.album_name == some (f.album.getD [])] else []) ++
  (if truthyText f.media_type then
    [fun a => a.media_type == some (f.media_type.getD [])] else []) ++
  (if truthyText f.content_type then
    [fun a => a.content_type == some (f.content_type.getD [])] else []) ++
  (if truthyNat f.min_reusability then
    [fun a => match a.reusability_score with
      | some r => decide (f.min_reusability.getD 0 ≤ r)
      | none => false] else []) ++
  (if truthyBool f.has_text_overlay_space then
    [fun a => a.suitable_for_text_overlay == some true] else []) ++
  (if truthyNat f.min_energy then
    [fun a => match a.energy_level with
      | some e => decide (f.min_energy.getD 0 ≤ e)
      | none => false] else []) ++
  (if truthyBool f.no_hardcoded_date then
    [fun a => a.has_date != some true] else []) ++
  (if truthyBool f.no_hardcoded_location then
    [fun a => a.has_location != some true] else [])

/-- WHERE clause of _filtered_keyword_search: the ILIKE fallback predicate
conjoined with every active filter conjunct. -/
def filtered_where (f : SearchFilters) (q : Text) (a : Asset) : Bool :=
  fb_pred q a && (filter_conditions f).all (fun c => c a)

/-- SearchService._filtered_keyword_search: the dynamically filtered ILIKE
query with fixed score 0.5 and the fallback ordering. -/
def filtered_keyword_search (db : List Asset) (f : SearchFilters) (q : Text)
    (limit : Nat) : List (Asset × ℚ) :=
  (((db.filter (filtered_where f q)).map (fun a => (a, (1 : ℚ)/2))).insertionSort
      (fbLe q)).take limit

/-- SearchService._filtered_search: FILTERED_HYBRID_SEARCH when an embedding
is available, otherwise the dynamic filtered keyword query. -/
def filtered_search (db : List Asset) (cos : Emb → Emb → ℚ)
    (sim : Text → Text → ℚ) (trgm : Text → Text → Bool) (qe? : Option Emb)
    (f : SearchFilters) (q : Text) (limit : Nat) : List (Asset × ℚ) :=
  match qe? with
  | some qe => filtered_hybrid_search db cos sim trgm qe f q limit
  | none => filtered_keyword_search db f q limit

/-- The four storage query paths SearchService.search can dispatch to. -/
inductive QueryPath
  | filteredHybrid
  | filteredKeyword
  | hybridPath
  | keywordPath
deriving DecidableEq

/-- The dispatch of SearchService.search: a truthy filters object with active
filters selects the filtered paths (hybrid when an embedding exists), and
otherwise the embedding decides between the plain hybrid and keyword paths. -/
def select_path (qe? : Option Emb) (filters : Option SearchFilters) : QueryPath :=
  match filters with
  | some f =>
    if has_active_filters f then
      (if qe?.isSome then .filteredHybrid else .filteredKeyword)
    else (if qe?.isSome then .hybridPath else .keywordPath)
  | none => if qe?.isSome then .hybridPath else .keywordPath

/-- The unfiltered arm of the dispatch in SearchService.search. -/
def unfiltered_rows (db : List Asset) (cos : Emb → Emb → ℚ)
    (sim : Text → Text → ℚ) (trgm : Text → Text → Bool) (qe? : Option Emb)
    (q : Text) (limit : Nat) : List (Asset × ℚ) :=
  match qe? with
  | some qe => hybrid_search db cos sim trgm qe q limit
  | none => keyword_search db sim trgm q limit

/-- Row production of SearchService.search: filters with at least one active
field go to _filtered_search, otherwise the embedding decides between
_hybrid_search and _keyword_search.  The embedding argument is None exactly
when the provider is unconfigured or its call raised. -/
def search_rows (db : List Asset) (cos : Emb → Emb → ℚ)
    (sim : Text → Text → ℚ) (trgm : Text → Text → Bool) (qe? : Option Emb)
    (filters : Option SearchFilters) (q : Text) (limit : Nat) :
    List (Asset × ℚ) :=
  match filters with
  | some f =>
    if has_active_filters f then filtered_search db cos sim trgm qe? f q limit
    else unfiltered_rows db cos sim trgm qe? q limit
  | none => unfiltered_rows db cos sim trgm qe? q limit

/-- The object-storage collaborator: from key and expiry seconds to a
presigned URL, with none modelling a raised exception. -/
abbrev Storage := Text → Nat → Option Text

/-- Greedy capture of the regex group: the longest prefix of the non-slash run
that ends in a dot-jpg suffix with at least one character before it. -/
def jpg_capture (rest : Text) : Option Text :=
  let run := rest.takeWhile (fun c => c != '/')
  (((List.range (run.length + 1)).reverse).map (fun k => run.take k)).find?
    (fun p => decide (5 ≤ p.length) && decide (['.', 'j', 'p', 'g'] <:+ p))

/-- Leftmost match of the thumbnail-key regex inside a URL, returning the
reconstructed storage key: the literal thumbnails-slash prefix followed by the
greedy non-slash capture ending in dot-jpg. -/
def extract_thumb_key : Text → Option Text
  | [] => none
  | c :: rest =>
    if ['t', 'h', 'u', 'm', 'b', 'n', 'a', 'i', 'l', 's', '/'] <+: (c :: rest) then
      match jpg_capture ((c :: rest).drop 11) with
      | some cap => some (['t', 'h', 'u', 'm', 'b', 'n', 'a', 'i', 'l', 's', '/'] ++ cap)
      | none => extract_thumb_key rest
    else extract_thumb_key rest

/-- SearchService._get_presigned_thumbnail.  A missing or empty URL or a
missing storage service passes through unchanged; a URL whose thumbnail key is
extracted is presigned with a 3600-second expiry, and a raised presign
exception (none from the oracle) also passes the stored URL through
unchanged. -/
def get_presigned_thumbnail (storage : Option Storage) (url : Option Text) :
    Option Text :=
  match url, storage with
  | none, _ => none
  | some u, none => some u
  | some u, some st =>
    if u.isEmpty then some u
    else
      match extract_thumb_key u with
      | some key =>
        match st key 3600 with
        | some presigned => some presigned
        | none => some u
      | none => some u

/-- models.schemas.SearchResult restricted to the fields the ranking core
fills (the reasoning field is produced by an independent heuristic and not
modelled). -/
structure SearchResult where
  id : Nat
  filename : Text
  thumbnail_url : Option Text
  full_url : Option Text
  asset_type : Option Text
  album_name : Option Text
  media_type : Option Text
  content_type : Option Text
  width : Option Nat
  height : Option Nat
  score : ℚ
  semantic_description : Option Text
deriving DecidableEq

/-- Row-to-result mapping inside SearchService.search: each ranked row becomes
one SearchResult, with the thumbnail URL presigned best-effort and the score
taken from the row (the score-or-combined-or-0 chain of the code collapses to
the single score a row carries). -/
def to_search_result (storage : Option Storage) (row : Asset × ℚ) : SearchResult :=
  { id := row.1.id
    filename := row.1.filename
    thumbnail_url := get_presigned_thumbnail storage row.1.thumbnail_url
    full_url := row.1.full_url
    asset_type := row.1.asset_type
    album_name := row.1.album_name
    media_type := row.1.media_type
    content_type := row.1.content_type
    width := row.1.width
    height := row.1.height
    score := row.2
    semantic_description := row.1.semantic_description }

/-- SearchService.search: produce rows through the selected path, assemble the
results, and report total as the length of the assembled list. -/
def search (db : List Asset) (cos : Emb → Emb → ℚ) (sim : Text → Text → ℚ)
    (trgm : Text → Text → Bool) (storage : Option Storage) (qe? : Option Emb)
    (filters : Option SearchFilters) (q : Text) (limit : Nat) :
    List SearchResult × Nat :=
  let results := (search_rows db cos sim trgm qe? filters q limit).map
    (to_search_result storage)
  (results, results.length)

/-- Outcome of every storage fetch a single request may issue; an error value
models the storage layer raising during that fetch. -/
structure SearchDeps (ε : Type) where
  hybrid_fetch : Except ε (List (Asset × ℚ))
  filtered_hybrid_fetch : Except ε (List (Asset × ℚ))
  keyword_primary_fetch : Except ε (List (Asset × ℚ))
  keyword_fallback_fetch : Except ε (List (Asset × ℚ))
  filtered_keyword_fetch : Except ε (List (Asset × ℚ))

/-- Fallible _keyword_search: the primary fetch, then the fallback fetch
exactly when the primary succeeded with no rows. -/
def keyword_searchE {ε : Type} (deps : SearchDeps ε) :
    Except ε (List (Asset × ℚ)) := do
  let rows ← deps.keyword_primary_fetch
  if rows.isEmpty then deps.keyword_fallback_fetch else pure rows

/-- Fallible unfiltered arm of the dispatch. -/
def unfiltered_rowsE {ε : Type} (deps : SearchDeps ε) (qe? : Option Emb) :
    Except ε (List (Asset × ℚ)) :=
  if qe?.isSome then deps.hybrid_fetch else keyword_searchE deps

/-- Fallible row production of SearchService.search, with the same dispatch
structure as search_rows. -/
def search_rowsE {ε : Type} (deps : SearchDeps ε) (qe? : Option Emb)
    (filters : Option SearchFilters) : Except ε (List (Asset × ℚ)) :=
  match filters with
  | some f =>
    if has_active_filters f then
      (if qe?.isSome then deps.filtered_hybrid_fetch else deps.filtered_keyword_fetch)
    else unfiltered_rowsE deps qe?
  | none => unfiltered_rowsE deps qe?

/-- Fallible SearchService.search: any fetch error propagates; on success the
results are assembled and total is their count. -/
def searchE {ε : Type} (deps : SearchDeps ε) (storage : Option Storage)
    (qe? : Option Emb) (filters : Option SearchFilters) :
    Except ε (List SearchResult × Nat) := do
  let rows ← search_rowsE deps qe? filters
  let results := rows.map (to_search_result storage)
  pure (results, results.length)

/-- models.schemas.SearchResponse; filters_applied echoes the filters object
when one was sent. -/
structure SearchResponse where
  results : List SearchResult
  total : Nat
  query : Text
  filters_applied : Option SearchFilters
deriving DecidableEq

/-- routes/search.search_assets: the whole service call runs inside one
try-except, so a raised storage error becomes a single HTTP 500 carrying the
error, and only a fully successful run produces a response. -/
def search_assets {ε : Type} (deps : SearchDeps ε) (storage : Option Storage)
    (qe? : Option Emb) (filters : Option SearchFilters) (q : Text) :
    Except (Nat × ε) SearchResponse :=
  match searchE deps storage qe? filters with
  | .ok (results, total) =>
    .ok { results := results, total := total, query := q, filters_applied := filters }
  | .error e => .error (500, e)

/-- The fetch outcomes when the storage layer works: every fetch returns the
corresponding pure query result. -/
def pure_deps (db : List Asset) (cos : Emb → Emb → ℚ) (sim : Text → Text → ℚ)
    (trgm : Text → Text → Bool) (qe? : Option Emb) (f : SearchFilters)
    (q : Text) (limit : Nat) : SearchDeps Empty :=
  { hybrid_fetch := .ok (hybrid_search db cos sim trgm (qe?.getD []) q limit)
    filtered_hybrid_fetch :=
      .ok (filtered_hybrid_search db cos sim trgm (qe?.getD []) f q limit)
    keyword_primary_fetch := .ok (keyword_primary db sim trgm q limit)
    keyword_fallback_fetch := .ok (keyword_fallback db q limit)
    filtered_keyword_fetch := .ok (filtered_keyword_search db f q limit) }

/-- The nine filter fields, used to speak about clearing one field. -/
inductive FilterField
  | assetTypeF
  | albumF
  | mediaTypeF
  | contentTypeF
  | minReusabilityF
  | hasTextOverlayF
  | minEnergyF
  | noDateF
  | noLocationF
deriving DecidableEq

/-- Clearing one field of a filter set. -/
def clear_field : FilterField → SearchFilters → SearchFilters
  | .assetTypeF, f => { f with asset_type := none }
  | .albumF, f => { f with album := none }
  | .mediaTypeF, f => { f with media_type := none }
  | .contentTypeF, f => { f with content_type := none }
  | .minReusabilityF, f => { f with min_reusability := none }
  | .hasTextOverlayF, f => { f with has_text_overlay_space := none }
  | .minEnergyF, f => { f with min_energy := none }
  | .noDateF, f => { f with no_hardcoded_date := none }
  | .noLocationF, f => { f with no_hardcoded_location := none }

/-! Concrete data used by witnesses and counterexamples. -/

/-- Concrete query text. -/
def qFlyer : Text := ['f', 'l', 'y', 'e', 'r']

/-- Concrete asset-type label. -/
def tmplT : Text := ['t', 'e', 'm', 'p', 'l', 'a', 't', 'e']

/-- Template asset with reusability score 1 and an embedding. -/
def a1 : Asset :=
  { id := 1, filename := qFlyer, search_text := some qFlyer,
    embedding := some [1], asset_type := some tmplT,
    reusability_score := some 1, created_in_db := 1 }

/-- Scenario C filter set: asset type template and minimum reusability 4. -/
def f1 : SearchFilters := { asset_type := some tmplT, min_reusability := some 4 }

/-- One-asset corpus for the filtered hybrid counterexample. -/
def db1 : List Asset := [a1]

/-- Distance oracle putting every embedding at distance 0 from the query. -/
def cos1 : Emb → Emb → ℚ := fun _ _ => 0

/-- Similarity oracle returning 0 everywhere. -/
def sim1 : Text → Text → ℚ := fun _ _ => 0

/-- Trigram match oracle rejecting everything. -/
def trgm1 : Text → Text → Bool := fun _ _ => false

/-- Lexically matching template asset satisfying every conjunct of f1. -/
def aL : Asset :=
  { id := 2, filename := qFlyer, search_text := some qFlyer,
    asset_type := some tmplT, reusability_score := some 5, created_in_db := 2 }

/-- Asset present in both hybrid candidate sets. -/
def a2 : Asset :=
  { id := 3, filename := qFlyer, search_text := some qFlyer,
    embedding := some [1, 0], created_in_db := 2 }

/-- One-asset corpus for the hybrid blending witness. -/
def db2 : List Asset := [a2]

/-- Distance oracle giving distance one-quarter, hence semantic score
three-quarters. -/
def cos2 : Emb → Emb → ℚ := fun _ _ => 1/4

/-- Similarity oracle giving one-half everywhere. -/
def sim2 : Text → Text → ℚ := fun _ _ => 1/2

/-- Trigram match oracle accepting everything. -/
def trgm2 : Text → Text → Bool := fun _ _ => true

/-- Concrete short query for the fallback scenarios. -/
def qJoey : Text := ['j', 'o', 'e', 'y']

/-- Fallback asset matching on filename only. -/
def b1 : Asset :=
  { id := 4, filename := ['j', 'o', 'e', 'y', '1'], search_text := some ['z'],
    created_in_db := 1 }

/-- Fallback asset matching on search text only, created later. -/
def b2 : Asset :=
  { id := 5, filename := ['x'], search_text := some ['a', 'j', 'o', 'e', 'y'],
    created_in_db := 2 }

/-- Two-asset corpus for the fallback ordering witness. -/
def db3 : List Asset := [b2, b1]

/-- Single-character query for the filter-clearing counterexample. -/
def qQ : Text := ['q']

/-- Single-character asset-type label. -/
def tT : Text := ['t']

/-- Asset matching the full filter set f5 but ranked behind b5. -/
def a5 : Asset :=
  { id := 6, filename := ['z'], search_text := some ['q'],
    asset_type := some tT, reusability_score := some 1, created_in_db := 1 }

/-- Asset with no reusability score but a filename match, ranked first. -/
def b5 : Asset :=
  { id := 7, filename := ['q', 'f'], search_text := some ['x'],
    asset_type := some tT, created_in_db := 2 }

/-- Two-asset corpus for the filter-clearing counterexample. -/
def db5 : List Asset := [a5, b5]

/-- Filter set with asset type and minimum reusability active. -/
def f5 : SearchFilters := { asset_type := some tT, min_reusability := some 1 }

/-- Two fallback matches for the total-count instance. -/
def db6 : List Asset :=
  [{ id := 8, filename := qJoey, search_text := some qJoey, created_in_db := 1 },
   { id := 9, filename := qJoey, search_text := some qJoey, created_in_db := 2 }]

/-- Stored URL without a thumbnails key segment. -/
def u7 : Text := ['c', 'o', 'v', 'e', 'r', '.', 'p', 'n', 'g']

/-- Presigned URL the storage oracle would return. -/
def p7 : Text := ['P']

/-- Always-succeeding storage oracle. -/
def st7 : Storage := fun _ _ => some p7

/-- Ranked asset whose stored thumbnail URL has no thumbnails key segment. -/
def a7 : Asset := { id := 10, thumbnail_url := some u7 }

/-- Stored URL containing a thumbnails key segment. -/
def u7b : Text :=
  ['x', '/', 't', 'h', 'u', 'm', 'b', 'n', 'a', 'i', 'l', 's', '/',
   'p', 'i', 'c', '.', 'j', 'p', 'g']

/-- The key the regex extracts from u7b. -/
def k7b : Text :=
  ['t', 'h', 'u', 'm', 'b', 'n', 'a', 'i', 'l', 's', '/',
   'p', 'i', 'c', '.', 'j', 'p', 'g']

/-- Fetch outcomes where the trigram fetch succeeds empty and the fallback
fetch raises a storage error. -/
def deps8 : SearchDeps Nat :=
  { hybrid_fetch := .ok []
    filtered_hybrid_fetch := .ok []
    keyword_primary_fetch := .ok []
    keyword_fallback_fetch := .error 42
    filtered_keyword_fetch := .ok [] }

/-- Filter set whose only set fields are Python-falsy booleans. -/
def f9 : SearchFilters :=
  { has_text_overlay_space := some false, no_hardcoded_date := some false }

/-- Record with a filename containing the query but a null search text. -/
def a10 : Asset :=
  { id := 11, filename := qJoey, search_text := none, created_in_db := 3 }

/-! Theorems. -/

/-- Length of a take is at most the count taken. -/
theorem len_take_le {α : Type} (n : Nat) (l : List α) : (l.take n).length ≤ n := by
  rw [List.length_take]; exact min_le_left _ _

/-- Claim C2: in hybrid mode every returned row lies in at least one candidate
set (rows in neither set are excluded); a row in both sets with semantic score
s and lexical score k receives combined score s * 0.7 + k * 0.3; a row in only
one set keeps only the weighted term that is present; the rows are ordered by
combined score descending and at most the requested limit of rows return. -/
theorem hybrid_blend_correct (db : List Asset) (cos : Emb → Emb → ℚ)
    (sim : Text → Text → ℚ) (trgm : Text → Text → Bool) (qe : Emb) (q : Text)
    (limit : Nat) :
    (∀ a c, (a, c) ∈ hybrid_search db cos sim trgm qe q limit →
      (((semantic_results db cos qe).lookup a.id).isSome = true ∨
        ((keyword_results db sim trgm q).lookup a.id).isSome = true) ∧
      (∀ s k, (semantic_results db cos qe).lookup a.id = some s →
        (keyword_results db sim trgm q).lookup a.id = some k →
        c = s * (7/10) + k * (3/10)) ∧
      (∀ s, (semantic_results db cos qe).lookup a.id = some s →
        (keyword_results db sim trgm q).lookup a.id = none → c = s * (7/10)) ∧
      (∀ k, (semantic_results db cos qe).lookup a.id = none →
        (keyword_results db sim trgm q).lookup a.id = some k → c = k * (3/10))) ∧
    List.Sorted descKey (hybrid_search db cos sim trgm qe q limit) ∧
    (hybrid_search db cos sim trgm qe q limit).length ≤ limit := by
  refine ⟨?_, ?_, len_take_le _ _⟩
  · intro a c hmem
    have h1 : (a, c) ∈ ((db.filter (fun x =>
        ((semantic_results db cos qe).lookup x.id).isSome ||
        ((keyword_results db sim trgm q).lookup x.id).isSome)).map
        (fun x => (x, combined_score (semantic_results db cos qe)
          (keyword_results db sim trgm q) x))) :=
      (List.mem_insertionSort descKey).1 (List.mem_of_mem_take hmem)
    obtain ⟨b, hb, heq⟩ := List.mem_map.1 h1
    cases heq
    obtain ⟨_, hcond⟩ := List.mem_filter.1 hb
    refine ⟨?_, ?_, ?_, ?_⟩
    · simpa [Bool.or_eq_true] using hcond
    · intro s k hs hk
      simp [combined_score, hs, hk]
    · intro s hs hk
      simp [combined_score, hs, hk]
    · intro k hs hk
      simp [combined_score, hs, hk]
  · exact List.Pairwise.sublist (List.take_sublist _ _)
      (List.sorted_insertionSort descKey _)

/-- Witness for hybrid_blend_correct: on a concrete one-asset corpus present
in both candidate sets with semantic score 3/4 and lexical score 1/2, the
returned combined score 27/40 satisfies the weighting identity. -/
theorem hybrid_blend_correct_witness :
    (27 : ℚ)/40 = (3/4) * (7/10) + (1/2) * (3/10) :=
  ((hybrid_blend_correct db2 cos2 sim2 trgm2 [1, 0] qFlyer 5).1 a2 ((27 : ℚ)/40)
    (by decide)).2.1 (3/4) (1/2) (by decide) (by decide)

/-- Claim C3: when the trigram query returns zero rows, _keyword_search
re-runs with case-insensitive substring containment of the query against
search_text and filename; every returned match carries the fixed score 0.5
and matched by containment; the rows are ordered with filename matches before
search-text-only matches and newer records first within a rank; at most the
limit of rows return. -/
theorem keyword_fallback_correct (db : List Asset) (sim : Text → Text → ℚ)
    (trgm : Text → Text → Bool) (q : Text) (limit : Nat)
    (hempty : keyword_primary db sim trgm q limit = []) :
    keyword_search db sim trgm q limit = keyword_fallback db q limit ∧
    (∀ a c, (a, c) ∈ keyword_fallback db q limit →
      c = 1/2 ∧ (ilike (a.search_text.getD []) q || ilike a.filename q) = true) ∧
    List.Sorted (fbLe q) (keyword_fallback db q limit) ∧
    (keyword_fallback db q limit).length ≤ limit := by
  refine ⟨?_, ?_, ?_, len_take_le _ _⟩
  · simp [keyword_search, hempty]
  · intro a c hmem
    have h1 : (a, c) ∈ (db.filter (fb_pred q)).map (fun x => (x, (1 : ℚ)/2)) :=
      (List.mem_insertionSort (fbLe q)).1 (List.mem_of_mem_take hmem)
    obtain ⟨b, hb, heq⟩ := List.mem_map.1 h1
    cases heq
    obtain ⟨_, hcond⟩ := List.mem_filter.1 hb
    simp only [fb_pred, Bool.and_eq_true] at hcond
    exact ⟨rfl, hcond.2⟩
  · exact List.Pairwise.sublist (List.take_sublist _ _)
      (List.sorted_insertionSort (fbLe q) _)

/-- Witness for keyword_fallback_correct: on a concrete corpus with no trigram
hits the engine returns exactly the fallback rows. -/
theorem keyword_fallback_correct_witness :
    keyword_search db3 sim1 trgm1 qJoey 5 = keyword_fallback db3 qJoey 5 :=
  (keyword_fallback_correct db3 sim1 trgm1 qJoey 5 (by decide)).1

/-- Claim C10: the ILIKE fallback requires a non-null search_text even for
filename matches: a record with null search_text whose filename contains the
query is never returned by the fallback path. -/
theorem fallback_requires_search_text (db : List Asset) (q : Text) (limit : Nat)
    (a : Asset) (c : ℚ) (hst : a.search_text = none)
    (hfn : ilike a.filename q = true) :
    (a, c) ∉ keyword_fallback db q limit := by
  intro hmem
  have h1 : (a, c) ∈ (db.filter (fb_pred q)).map (fun x => (x, (1 : ℚ)/2)) :=
    (List.mem_insertionSort (fbLe q)).1 (List.mem_of_mem_take hmem)
  obtain ⟨b, hb, heq⟩ := List.mem_map.1 h1
  have hba : b = a := congrArg Prod.fst heq
  subst hba
  obtain ⟨_, hcond⟩ := List.mem_filter.1 hb
  simp [fb_pred, hst] at hcond

/-- Witness for fallback_requires_search_text: a concrete record whose
filename contains the query but whose search_text is null is absent from the
fallback result over the one-record corpus. -/
theorem fallback_requires_search_text_witness :
    a10.search_text = none ∧ ilike a10.filename qJoey = true ∧
      (a10, (1 : ℚ)/2) ∉ keyword_fallback [a10] qJoey 5 :=
  ⟨rfl, by decide, fallback_requires_search_text [a10] qJoey 5 a10 ((1 : ℚ)/2)
    rfl (by decide)⟩

/-- Claim C4: when no embedding was obtained the produced rows do not depend
on the vector-distance oracle at all (no vector query is issued) and the
selected path is a lexical one; when an embedding was obtained the selected
path is a hybrid one, never a lexical-only one; and each selected path runs
exactly the corresponding query. -/
theorem mode_selection_correct :
    (∀ db (cos cos' : Emb → Emb → ℚ) sim trgm filters q limit,
      search_rows db cos sim trgm none filters q limit =
        search_rows db cos' sim trgm none filters q limit) ∧
    (∀ filters, select_path none filters = .filteredKeyword ∨
      select_path none filters = .keywordPath) ∧
    (∀ qe filters, select_path (some qe) filters = .filteredHybrid ∨
      select_path (some qe) filters = .hybridPath) ∧
    (∀ db cos sim trgm qe? filters q limit,
      (select_path qe? filters = .filteredKeyword →
        search_rows db cos sim trgm qe? filters q limit =
          filtered_keyword_search db (filters.getD {}) q limit) ∧
      (select_path qe? filters = .keywordPath →
        search_rows db cos sim trgm qe? filters q limit =
          keyword_search db sim trgm q limit) ∧
      (∀ qe, qe? = some qe → select_path qe? filters = .filteredHybrid →
        search_rows db cos sim trgm qe? filters q limit =
          filtered_hybrid_search db cos sim trgm qe (filters.getD {}) q limit) ∧
      (∀ qe, qe? = some qe → select_path qe? filters = .hybridPath →
        search_rows db cos sim trgm qe? filters q limit =
          hybrid_search db cos sim trgm qe q limit)) := by
  refine ⟨?_, ?_, ?_, ?_⟩
  · intro db cos cos' sim trgm filters q limit
    rcases filters with _ | f
    · rfl
    · by_cases h : has_active_filters f <;>
        simp [search_rows, unfiltered_rows, filtered_search, h]
  · intro filters
    rcases filters with _ | f
    · right; rfl
    · by_cases h : has_active_filters f <;> simp [select_path, h]
  · intro qe filters
    rcases filters with _ | f
    · right; rfl
    · by_cases h : has_active_filters f <;> simp [select_path, h]
  · intro db cos sim trgm qe? filters q limit
    rcases qe? with _ | qe
    · refine ⟨?_, ?_, ?_, ?_⟩
      · intro hsel
        rcases filters with _ | f
        · simp [select_path] at hsel
        · by_cases h : has_active_filters f
          · simp [search_rows, filtered_search, h]
          · simp [select_path, h] at hsel
      · intro hsel
        rcases filters with _ | f
        · rfl
        · by_cases h : has_active_filters f
          · simp [select_path, h] at hsel
          · simp [search_rows, unfiltered_rows, h]
      · intro qe hqe
        cases hqe
      · intro qe hqe
        cases hqe
    · refine ⟨?_, ?_, ?_, ?_⟩
      · intro hsel
        rcases filters with _ | f
        · simp [select_path] at hsel
        · by_cases h : has_active_filters f <;> simp [select_path, h] at hsel
      · intro hsel
        rcases filters with _ | f
        · simp [select_path] at hsel
        · by_cases h : has_active_filters f <;> simp [select_path, h] at hsel
      · intro qe' hqe hsel
        cases hqe
        rcases filters with _ | f
        · simp [select_path] at hsel
        · by_cases h : has_active_filters f
          · simp [search_rows, filtered_search, h]
          · simp [select_path, h] at hsel
      · intro qe' hqe hsel
        cases hqe
        rcases filters with _ | f
        · rfl
        · by_cases h : has_active_filters f
          · simp [select_path, h] at hsel
          · simp [search_rows, unfiltered_rows, h]

/-- Witness for mode_selection_correct: with active filters and no embedding
the dispatch runs the filtered keyword query on a concrete corpus. -/
theorem mode_selection_correct_witness :
    search_rows db1 cos1 sim1 trgm1 none (some f1) qFlyer 5 =
      filtered_keyword_search db1 f1 qFlyer 5 :=
  (mode_selection_correct.2.2.2 db1 cos1 sim1 trgm1 none (some f1) qFlyer 5).1
    (by decide)

/-- Length bound for every query path of SearchService.search. -/
theorem search_rows_len_le (db : List Asset) (cos : Emb → Emb → ℚ)
    (sim : Text → Text → ℚ) (trgm : Text → Text → Bool) (qe? : Option Emb)
    (filters : Option SearchFilters) (q : Text) (limit : Nat) :
    (search_rows db cos sim trgm qe? filters q limit).length ≤ limit := by
  have hk : (keyword_search db sim trgm q limit).length ≤ limit := by
    by_cases h : (keyword_primary db sim trgm q limit).isEmpty
    · simp only [keyword_search, h, if_true]
      exact len_take_le _ _
    · simp only [keyword_search, h, if_false]
      exact len_take_le _ _
  have hu : (unfiltered_rows db cos sim trgm qe? q limit).length ≤ limit := by
    rcases qe? with _ | qe
    · exact hk
    · exact len_take_le _ _
  rcases filters with _ | f
  · exact hu
  · by_cases h : has_active_filters f
    · simp only [search_rows, h, if_true]
      rcases qe? with _ | qe
      · exact len_take_le _ _
      · exact len_take_le _ _
    · simp only [search_rows, h, if_false]
      exact hu

/-- Claim C6: the reported total equals the number of rows actually returned,
which is at most the requested limit; the concrete corpus with two matching
records and limit 1 reports total 1, not the corpus-wide match count 2. -/
theorem total_counts_returned_rows (db : List Asset) (cos : Emb → Emb → ℚ)
    (sim : Text → Text → ℚ) (trgm : Text → Text → Bool)
    (storage : Option Storage) (qe? : Option Emb)
    (filters : Option SearchFilters) (q : Text) (limit : Nat) :
    (search db cos sim trgm storage qe? filters q limit).2 =
      (search db cos sim trgm storage qe? filters q limit).1.length ∧
    (search db cos sim trgm storage qe? filters q limit).1.length ≤ limit ∧
    ((search db6 cos1 sim1 trgm1 none none none qJoey 1).2 = 1 ∧
      (db6.filter (fb_pred qJoey)).length = 2) := by
  refine ⟨rfl, ?_, by decide, by decide⟩
  show ((search_rows db cos sim trgm qe? filters q limit).map
    (to_search_result storage)).length ≤ limit
  rw [List.length_map]
  exact search_rows_len_le db cos sim trgm qe? filters q limit

/-- Claim C8: when the storage layer raises, the caller receives a single
opaque HTTP 500 failure and no response carrying rows; a fallback-fetch
failure after a successful empty primary fetch is such an error, so no
partial rows survive a mid-request storage failure. -/
theorem storage_error_single_failure {ε : Type} (deps : SearchDeps ε)
    (storage : Option Storage) (qe? : Option Emb)
    (filters : Option SearchFilters) (q : Text) (e : ε)
    (h : search_rowsE deps qe? filters = .error e) :
    search_assets deps storage qe? filters q = .error (500, e) ∧
    (∀ resp, search_assets deps storage qe? filters q ≠ .ok resp) ∧
    (deps.keyword_primary_fetch = .ok [] →
      ∀ e', deps.keyword_fallback_fetch = .error e' →
        search_rowsE deps none none = .error e') := by
  have hE : searchE deps storage qe? filters = Except.error e := by
    unfold searchE
    rw [h]
    rfl
  refine ⟨?_, ?_, ?_⟩
  · simp [search_assets, hE]
  · intro resp
    simp [search_assets, hE]
  · intro hp e' hf
    unfold search_rowsE unfiltered_rowsE keyword_searchE
    rw [hp]
    simpa using hf

/-- Witness for storage_error_single_failure: concrete fetch outcomes where
the trigram fetch succeeds empty and the fallback fetch raises error 42
produce exactly one 500 failure. -/
theorem storage_error_single_failure_witness :
    search_assets deps8 none none none qJoey = Except.error (500, 42) :=
  (storage_error_single_failure deps8 none none none qJoey 42 rfl).1

/-- Claim C9: a filter object with no Python-truthy field is treated exactly
as no filters object: the same rows are produced, the predicate builder emits
no conjunct, and the instance with both boolean fields explicitly false is
inactive. -/
theorem falsy_filters_inactive (db : List Asset) (cos : Emb → Emb → ℚ)
    (sim : Text → Text → ℚ) (trgm : Text → Text → Bool) (qe? : Option Emb)
    (q : Text) (limit : Nat) (f : SearchFilters)
    (h : has_active_filters f = false) :
    search_rows db cos sim trgm qe? (some f) q limit =
      search_rows db cos sim trgm qe? none q limit ∧
    filter_conditions f = [] ∧
    has_active_filters f9 = false := by
  refine ⟨?_, ?_, by decide⟩
  · simp [search_rows, h]
  · simp only [has_active_filters, Bool.or_eq_false_iff] at h
    simp [filter_conditions, h]

/-- Witness for falsy_filters_inactive: the request with the all-falsy filter
object returns the same rows as the request with no filters object on a
concrete corpus. -/
theorem falsy_filters_inactive_witness :
    search_rows db3 cos1 sim1 trgm1 none (some f9) qJoey 5 =
      search_rows db3 cos1 sim1 trgm1 none none qJoey 5 :=
  (falsy_filters_inactive db3 cos1 sim1 trgm1 none qJoey 5 f9 (by decide)).1

/-- Every active filter conjunct holds on a row passing the dynamic WHERE
clause of the filtered keyword query. -/
theorem conds_of_filtered_where {f : SearchFilters} {q : Text} {a : Asset}
    (hw : filtered_where f q a = true) :
    ∀ cond ∈ filter_conditions f, cond a = true := by
  simp only [filtered_where, Bool.and_eq_true, List.all_eq_true] at hw
  exact hw.2

/-- Counterexample to claim C1: with the Scenario C filters and an embedding
available, the request runs the filtered hybrid path and returns a template
whose reusability score is 1, below the requested minimum of 4, because
FILTERED_HYBRID_SEARCH never receives the min_reusability filter. -/
theorem filtered_hybrid_skips_min_reusability :
    has_active_filters f1 = true ∧ f1.min_reusability = some 4 ∧
    a1.reusability_score = some 1 ∧
    (a1, (7 : ℚ)/10) ∈ search_rows db1 cos1 sim1 trgm1 (some [1]) (some f1) qFlyer 10 :=
  ⟨by decide, rfl, rfl, by decide⟩

/-- Claim C1 amended: in lexical-only mode every conjunct built from the set
filter fields holds on every returned row, in particular asset-type equality
and the reusability threshold; in hybrid mode only the asset_type, album and
media_type conjuncts are enforced on returned rows. -/
theorem filtered_search_enforcement (db : List Asset) (cos : Emb → Emb → ℚ)
    (sim : Text → Text → ℚ) (trgm : Text → Text → Bool) (qe : Emb)
    (f : SearchFilters) (q : Text) (limit : Nat) (a : Asset) (c : ℚ) :
    ((a, c) ∈ filtered_keyword_search db f q limit →
      (∀ cond ∈ filter_conditions f, cond a = true) ∧
      (∀ v, f.asset_type = some v → v ≠ [] → a.asset_type = some v) ∧
      (∀ n, f.min_reusability = some n → n ≠ 0 →
        ∃ r, a.reusability_score = some r ∧ n ≤ r)) ∧
    ((a, c) ∈ filtered_hybrid_search db cos sim trgm qe f q limit →
      triple_filter f a = true) := by
  constructor
  · intro hmem
    have h1 : (a, c) ∈ (db.filter (filtered_where f q)).map (fun x => (x, (1 : ℚ)/2)) :=
      (List.mem_insertionSort (fbLe q)).1 (List.mem_of_mem_take hmem)
    obtain ⟨b, hb, heq⟩ := List.mem_map.1 h1
    have hba : b = a := congrArg Prod.fst heq
    subst hba
    obtain ⟨_, hw⟩ := List.mem_filter.1 hb
    have hall := conds_of_filtered_where hw
    refine ⟨hall, ?_, ?_⟩
    · intro v hv hne
      have htv : truthyText f.asset_type = true := by
        rw [hv]
        cases v with
        | nil => exact absurd rfl hne
        | cons ch cs => rfl
      have hmem1 : (fun x : Asset => x.asset_type == some (f.asset_type.getD []))
          ∈ filter_conditions f := by
        simp [filter_conditions, htv, List.mem_append]
      have happ := hall _ hmem1
      simpa [hv] using happ
    · intro n hn hne
      have htn : truthyNat f.min_reusability = true := by
        rw [hn]
        simpa [truthyNat] using hne
      have hmem5 : (fun x : Asset => match x.reusability_score with
          | some r => decide (f.min_reusability.getD 0 ≤ r)
          | none => false) ∈ filter_conditions f := by
        simp [filter_conditions, htn, List.mem_append]
      have happ := hall _ hmem5
      rcases hr : b.reusability_score with _ | r
      · rw [hr] at happ
        simp at happ
      · refine ⟨r, rfl, ?_⟩
        rw [hr] at happ
        simp only [hn] at happ
        simpa using happ
  · intro hmem
    have h1 : (a, c) ∈ (db.filter (fun x =>
        (((filtered_semantic_results db cos qe f).lookup x.id).isSome ||
          ((filtered_keyword_results db sim trgm q f).lookup x.id).isSome) &&
          triple_filter f x)).map (fun x => (x, combined_score
            (filtered_semantic_results db cos qe f)
            (filtered_keyword_results db sim trgm q f) x)) :=
      (List.mem_insertionSort descKey).1 (List.mem_of_mem_take hmem)
    obtain ⟨b, hb, heq⟩ := List.mem_map.1 h1
    have hba : b = a := congrArg Prod.fst heq
    subst hba
    obtain ⟨_, hcond⟩ := List.mem_filter.1 hb
    simp only [Bool.and_eq_true] at hcond
    exact hcond.2

/-- Witness for filtered_search_enforcement: on concrete corpora the lexical
path returns only rows satisfying the asset-type and reusability conjuncts,
and the hybrid path returns only rows passing the three-way filter. -/
theorem filtered_search_enforcement_witness :
    aL.asset_type = some tmplT ∧ (∃ r, aL.reusability_score = some r ∧ 4 ≤ r) ∧
      triple_filter f1 a1 = true := by
  have hlex := (filtered_search_enforcement [aL] cos1 sim1 trgm1 [1] f1 qFlyer
    10 aL ((1 : ℚ)/2)).1 (by decide)
  have hhyb := (filtered_search_enforcement db1 cos1 sim1 trgm1 [1] f1 qFlyer
    10 a1 ((7 : ℚ)/10)).2 (by decide)
  exact ⟨hlex.2.1 tmplT rfl (by decide), hlex.2.2 4 rfl (by decide), hhyb⟩

/-- Clearing one field removes at most one conjunct from the built predicate
list. -/
theorem filter_conditions_clear_sublist (fld : FilterField) (f : SearchFilters) :
    List.Sublist (filter_conditions (clear_field fld f)) (filter_conditions f) := by
  cases fld <;>
    simp [filter_conditions, clear_field, truthyText, truthyNat, truthyBool]

/-- Counterexample to claim C5: with limit 1, clearing the min_reusability
field lets a filename-ranked row displace the previously returned row, so a
row returned under the full filters and satisfying all remaining predicates
is no longer returned after clearing one field. -/
theorem filter_clearing_not_monotone :
    (a5, (1 : ℚ)/2) ∈ filtered_keyword_search db5 f5 qQ 1 ∧
    filtered_where (clear_field .minReusabilityF f5) qQ a5 = true ∧
    (a5, (1 : ℚ)/2) ∉ filtered_keyword_search db5 (clear_field .minReusabilityF f5) qQ 1 :=
  ⟨by decide, by decide, by decide⟩

/-- Claim C5 amended: clearing one filter field weakens the row predicate
pointwise, since an unset field contributes no conjunct at all; consequently
whenever the cleared filter's full match set fits within the limit, every row
returned under the original filters is still returned after clearing; under
limit truncation a cleared filter can displace rows, as the counterexample
shows. -/
theorem filter_clearing_monotone (fld : FilterField) (f : SearchFilters)
    (db : List Asset) (q : Text) (limit : Nat) (a : Asset) (c : ℚ) :
    (∀ b, filtered_where f q b = true →
      filtered_where (clear_field fld f) q b = true) ∧
    ((db.filter (filtered_where (clear_field fld f) q)).length ≤ limit →
      (a, c) ∈ filtered_keyword_search db f q limit →
      (a, c) ∈ filtered_keyword_search db (clear_field fld f) q limit) := by
  have hpt : ∀ b, filtered_where f q b = true →
      filtered_where (clear_field fld f) q b = true := by
    intro b hb
    simp only [filtered_where, Bool.and_eq_true, List.all_eq_true] at hb ⊢
    exact ⟨hb.1, fun cond hc =>
      hb.2 cond ((filter_conditions_clear_sublist fld f).subset hc)⟩
  refine ⟨hpt, ?_⟩
  intro hlen hmem
  have h1 : (a, c) ∈ (db.filter (filtered_where f q)).map (fun x => (x, (1 : ℚ)/2)) :=
    (List.mem_insertionSort (fbLe q)).1 (List.mem_of_mem_take hmem)
  obtain ⟨b, hb, heq⟩ := List.mem_map.1 h1
  have hba : b = a := congrArg Prod.fst heq
  subst hba
  have hc : (1 : ℚ)/2 = c := congrArg Prod.snd heq
  obtain ⟨hdb, hw⟩ := List.mem_filter.1 hb
  have hmem2 : (b, (1 : ℚ)/2) ∈
      (db.filter (filtered_where (clear_field fld f) q)).map (fun x => (x, (1 : ℚ)/2)) :=
    List.mem_map_of_mem _ (List.mem_filter.2 ⟨hdb, hpt b hw⟩)
  have hlen2 : (((db.filter (filtered_where (clear_field fld f) q)).map
      (fun x => (x, (1 : ℚ)/2))).insertionSort (fbLe q)).length ≤ limit := by
    rw [List.length_insertionSort, List.length_map]
    exact hlen
  show (b, c) ∈ filtered_keyword_search db (clear_field fld f) q limit
  unfold filtered_keyword_search
  rw [List.take_of_length_le hlen2, ← hc]
  exact (List.mem_insertionSort (fbLe q)).2 hmem2

/-- Witness for filter_clearing_monotone: on the concrete corpus, with a limit
large enough to avoid truncation, the row returned under the full filters
remains returned after clearing the asset-type field. -/
theorem filter_clearing_monotone_witness :
    (a5, (1 : ℚ)/2) ∈ filtered_keyword_search db5 (clear_field .assetTypeF f5) qQ 2 :=
  (filter_clearing_monotone .assetTypeF f5 db5 qQ 2 a5 ((1 : ℚ)/2)).2
    (by decide) (by decide)

/-- Counterexample to claim C7: a ranked row whose stored thumbnail URL has no
thumbnails key segment is passed through unchanged even though the storage
oracle would have succeeded, so not every stored URL is resolved. -/
theorem thumbnail_not_always_resolved :
    (to_search_result (some st7) (a7, (1 : ℚ)/2)).thumbnail_url = some u7 ∧
    st7 u7 3600 = some p7 ∧ p7 ≠ u7 :=
  ⟨by decide, rfl, by decide⟩

/-- Claim C7 amended: a stored thumbnail URL containing a thumbnails name
dot-jpg segment is resolved through the storage collaborator with a
3600-second (one hour) expiry; if resolution raises, the stored URL passes
through unchanged; URLs without such a segment, an absent storage service and
missing or empty URLs pass through unchanged; and assembling results never
drops a row. -/
theorem thumbnail_resolution (st : Storage) (storage : Option Storage)
    (u key v : Text) (rows : List (Asset × ℚ)) :
    (u.isEmpty = false → extract_thumb_key u = some key → st key 3600 = some v →
      get_presigned_thumbnail (some st) (some u) = some v) ∧
    (u.isEmpty = false → extract_thumb_key u = some key → st key 3600 = none →
      get_presigned_thumbnail (some st) (some u) = some u) ∧
    (u.isEmpty = false → extract_thumb_key u = none →
      get_presigned_thumbnail (some st) (some u) = some u) ∧
    (u.isEmpty = true → get_presigned_thumbnail (some st) (some u) = some u) ∧
    get_presigned_thumbnail none (some u) = some u ∧
    get_presigned_thumbnail storage none = none ∧
    (rows.map (to_search_result storage)).length = rows.length := by
  refine ⟨?_, ?_, ?_, ?_, rfl, ?_, List.length_map _ _⟩
  · intro h1 h2 h3
    simp [get_presigned_thumbnail, h1, h2, h3]
  · intro h1 h2 h3
    simp [get_presigned_thumbnail, h1, h2, h3]
  · intro h1 h2
    simp [get_presigned_thumbnail, h1, h2]
  · intro h1
    simp [get_presigned_thumbnail, h1]
  · cases storage <;> rfl

/-- Witness for thumbnail_resolution: a concrete URL with a thumbnails
segment is resolved to the presigned URL the oracle returns for the extracted
key at expiry 3600. -/
theorem thumbnail_resolution_witness :
    get_presigned_thumbnail (some st7) (some u7b) = some p7 :=
  (thumbnail_resolution st7 none u7b k7b p7 []).1 (by decide) (by decide) rfl

end LaunchDam
